import Mathlib

/-!
Verification of the adaptive TCP congestion-control engine of this repository:
`backend/models/adaptive_tcp_congestion.py` together with the four algorithm
classes (`backend/algorithms/reno.py`, `backend/algorithms/bbr.py`,
`tcp-file-transfer/backend/algorithms/tahoe.py`,
`tcp-file-transfer/backend/algorithms/cubic.py`).

Modelling conventions of this shallow embedding:
* Python floats are modelled as exact rationals (`ℚ`).  All arithmetic the
  verified properties depend on (halving, `+ 1`, `* 0.7`, `max`, threshold
  comparisons) is exact in this model; decimal literals such as `0.7`, `2.885`
  or `1.1` are taken at their decimal value.
* `time.time()` is modelled by an explicit `now : ℚ` argument threaded into
  every operation that reads the clock.  The code may call `time.time()`
  several times within one event handler; the model uses a single instant per
  event, which is the intended reading (one event = one instant).
* BBR's `min_rtt` starts at `float('inf')`; the model uses `Option ℚ` with
  `none` standing for infinity, and each comparison against `min_rtt` is
  translated according to IEEE-754 comparison with infinity.
* Python truthiness of an optional float argument (`if rtt:`) is
  "`rtt` is not `None` and `rtt != 0`".
* The real cube root in Cubic's `on_loss_detected` and the real square root in
  the controller's RTT-variance computation are irrational, hence not
  representable in `ℚ`; the model takes these two maps as explicit function
  parameters (`cbrt`, `sqrtq`).  Every theorem below quantifies over them, so
  each result holds in particular for the true real-valued functions.
-/

/-- Phase strings `'slow_start' / 'congestion_avoidance' / 'fast_recovery'`
shared by the Tahoe, Reno and Cubic classes. -/
inductive TcpPhase
  | slow_start
  | congestion_avoidance
  | fast_recovery
  deriving DecidableEq, Repr

/-- `RenoAlgorithm` (`backend/algorithms/reno.py`). -/
structure RenoAlgorithm where
  cwnd : ℚ
  ssthresh : ℚ
  state : TcpPhase
  duplicate_acks : ℕ
  recover : ℤ
  deriving DecidableEq, Repr

namespace RenoAlgorithm

/-- `RenoAlgorithm.__init__`. -/
def init : RenoAlgorithm :=
  { cwnd := 1, ssthresh := 65535, state := .slow_start, duplicate_acks := 0, recover := 0 }

/-- `RenoAlgorithm.enter_fast_recovery`. -/
def enter_fast_recovery (ack_num : ℤ) (s : RenoAlgorithm) : RenoAlgorithm :=
  let ssthresh := max (s.cwnd / 2) 2
  { s with
    ssthresh := ssthresh
    cwnd := ssthresh + 3
    state := .fast_recovery
    recover := ack_num }

/-- `RenoAlgorithm.on_ack_received`. -/
def on_ack_received (ack_num : ℤ) (s : RenoAlgorithm) : RenoAlgorithm :=
  if s.state = .fast_recovery then
    if ack_num > s.recover then
      { s with cwnd := s.ssthresh, state := .congestion_avoidance, duplicate_acks := 0 }
    else
      { s with cwnd := s.cwnd + 1 }
  else if s.duplicate_acks ≥ 3 then
    s.enter_fast_recovery ack_num
  else
    match s.state with
    | .slow_start =>
        let s := { s with cwnd := s.cwnd + 1 }
        if s.cwnd ≥ s.ssthresh then { s with state := .congestion_avoidance } else s
    | .congestion_avoidance =>
        { s with cwnd := s.cwnd + 1 / s.cwnd }
    | .fast_recovery => s

end RenoAlgorithm

/-- `TahoeAlgorithm` (`tcp-file-transfer/backend/algorithms/tahoe.py`). -/
structure TahoeAlgorithm where
  cwnd : ℚ
  ssthresh : ℚ
  state : TcpPhase
  duplicate_acks : ℕ
  last_ack : ℤ
  deriving DecidableEq, Repr

namespace TahoeAlgorithm

/-- `TahoeAlgorithm.__init__`. -/
def init : TahoeAlgorithm :=
  { cwnd := 1, ssthresh := 65535, state := .slow_start, duplicate_acks := 0, last_ack := 0 }

/-- `TahoeAlgorithm.on_ack_received`.  The `ack_num` argument is unused by the
source body. -/
def on_ack_received (s : TahoeAlgorithm) : TahoeAlgorithm :=
  match s.state with
  | .slow_start =>
      let s := { s with cwnd := s.cwnd + 1 }
      if s.cwnd ≥ s.ssthresh then { s with state := .congestion_avoidance } else s
  | .congestion_avoidance =>
      { s with cwnd := s.cwnd + 1 / s.cwnd }
  | .fast_recovery => s

/-- `TahoeAlgorithm.on_timeout`. -/
def on_timeout (s : TahoeAlgorithm) : TahoeAlgorithm :=
  { s with ssthresh := max (s.cwnd / 2) 2, cwnd := 1, state := .slow_start }

end TahoeAlgorithm

/-- `CubicAlgorithm` (`tcp-file-transfer/backend/algorithms/cubic.py`). -/
structure CubicAlgorithm where
  cwnd : ℚ
  ssthresh : ℚ
  state : TcpPhase
  wmax : ℚ
  epoch_start : ℚ
  origin_point : ℚ
  deriving DecidableEq, Repr

namespace CubicAlgorithm

/-- `self.c = 0.4`, the cubic scaling factor. -/
def cubic_c : ℚ := 2 / 5

/-- `self.beta = 0.7`, the multiplicative decrease factor. -/
def cubic_beta : ℚ := 7 / 10

/-- `CubicAlgorithm.__init__`. -/
def init : CubicAlgorithm :=
  { cwnd := 1, ssthresh := 65535, state := .slow_start
    wmax := 0, epoch_start := 0, origin_point := 0 }

/-- `CubicAlgorithm.cubic_function`. -/
def cubic_function (s : CubicAlgorithm) (t : ℚ) : ℚ :=
  cubic_c * (t - s.origin_point) ^ 3 + s.wmax

/-- `CubicAlgorithm.on_ack_received`.  `now` models `time.time()`. -/
def on_ack_received (now : ℚ) (s : CubicAlgorithm) : CubicAlgorithm :=
  match s.state with
  | .slow_start =>
      let s := { s with cwnd := s.cwnd + 1 }
      if s.cwnd ≥ s.ssthresh then
        { s with state := .congestion_avoidance, epoch_start := now }
      else s
  | .congestion_avoidance =>
      let t := now - s.epoch_start
      let target_cwnd := s.cubic_function t
      if target_cwnd > s.cwnd then
        { s with cwnd := min target_cwnd (s.cwnd + 1 / s.cwnd) }
      else
        { s with cwnd := s.cwnd + 1 / s.cwnd }
  | .fast_recovery => s

/-- `CubicAlgorithm.on_loss_detected`.  The source sets
`origin_point = (wmax * (1 - beta) / c) ** (1 / 3)`, a real cube root that is
irrational for general `wmax`; the model receives the cube-root map `cbrt` as a
parameter and applies it to exactly the source's radicand. -/
def on_loss_detected (now : ℚ) (cbrt : ℚ → ℚ) (s : CubicAlgorithm) : CubicAlgorithm :=
  let wmax := s.cwnd
  let cwnd := s.cwnd * cubic_beta
  { s with
    wmax := wmax
    cwnd := cwnd
    ssthresh := cwnd
    state := .congestion_avoidance
    epoch_start := now
    origin_point := cbrt (wmax * (1 - cubic_beta) / cubic_c) }

end CubicAlgorithm

/-- BBR state-machine phase strings. -/
inductive BBRPhase
  | STARTUP
  | DRAIN
  | PROBE_BW
  | PROBE_RTT
  deriving DecidableEq, Repr

/-- `BBRAlgorithm` (`backend/algorithms/bbr.py`).  `min_rtt = none` models the
initial `float('inf')`. -/
structure BBRAlgorithm where
  bw_estimate : ℚ
  min_rtt : Option ℚ
  rtprop_stamp : ℚ
  probe_rtt_done_stamp : ℚ
  pacing_rate : ℚ
  cwnd : ℚ
  ssthresh : ℚ
  state : BBRPhase
  cycle_index : ℕ
  cycle_stamp : ℚ
  prior_cwnd : ℚ
  pacing_gain : ℚ
  packet_count : ℕ
  delivered : ℚ
  delivery_rate : ℚ
  round_start : Bool
  full_bw_reached : Bool
  full_bw : ℚ
  full_bw_count : ℕ
  deriving DecidableEq, Repr

namespace BBRAlgorithm

/-- `self.bbr_high_gain = 2.885`. -/
def bbr_high_gain : ℚ := 577 / 200

/-- `self.bbr_drain_gain = 1.0 / 2.885`. -/
def bbr_drain_gain : ℚ := 200 / 577

/-- `self.bbr_cwnd_gain = 2.0`. -/
def bbr_cwnd_gain : ℚ := 2

/-- `self.bbr_probe_rtt_time = 0.2`. -/
def bbr_probe_rtt_time : ℚ := 1 / 5

/-- `self.bbr_rtprop_filterlen = 10.0`. -/
def bbr_rtprop_filterlen : ℚ := 10

/-- `self.pacing_gain_cycle = [1.25, 0.75, 1.0, 1.0, 1.0, 1.0, 1.0, 1.0]`. -/
def pacing_gain_cycle : List ℚ := [5 / 4, 3 / 4, 1, 1, 1, 1, 1, 1]

/-- `BBRAlgorithm.__init__`. -/
def init : BBRAlgorithm :=
  { bw_estimate := 1000000
    min_rtt := none
    rtprop_stamp := 0
    probe_rtt_done_stamp := 0
    pacing_rate := 1000000
    cwnd := 10
    ssthresh := 65535
    state := .STARTUP
    cycle_index := 0
    cycle_stamp := 0
    prior_cwnd := 0
    pacing_gain := 1
    packet_count := 0
    delivered := 0
    delivery_rate := 0
    round_start := true
    full_bw_reached := false
    full_bw := 0
    full_bw_count := 0 }

/-- `BBRAlgorithm.update_bandwidth_estimate`. -/
def update_bandwidth_estimate (delivered_bytes elapsed_time : ℚ) (s : BBRAlgorithm) :
    BBRAlgorithm :=
  if elapsed_time > 0 then
    let current_bw := delivered_bytes / elapsed_time
    if current_bw > s.bw_estimate ∨ elapsed_time > 1 then
      { s with bw_estimate := current_bw }
    else s
  else s

/-- The test `rtt < self.min_rtt` with `min_rtt` possibly `float('inf')`:
every float is below infinity. -/
def rttBelowMin (rtt : ℚ) : Option ℚ → Bool
  | none => true
  | some m => decide (rtt < m)

/-- `BBRAlgorithm.update_min_rtt`. -/
def update_min_rtt (now rtt : ℚ) (s : BBRAlgorithm) : BBRAlgorithm :=
  if rttBelowMin rtt s.min_rtt = true ∨ now - s.rtprop_stamp > bbr_rtprop_filterlen then
    { s with min_rtt := some rtt, rtprop_stamp := now }
  else s

/-- `BBRAlgorithm.check_startup_done`: returns the boolean result together with
the mutated state. -/
def check_startup_done (s : BBRAlgorithm) : Bool × BBRAlgorithm :=
  if s.full_bw_reached then (true, s)
  else
    let s :=
      if s.bw_estimate ≥ s.full_bw * (5 / 4) then
        { s with full_bw := s.bw_estimate, full_bw_count := 0 }
      else
        { s with full_bw_count := s.full_bw_count + 1 }
    if s.full_bw_count ≥ 3 then (true, { s with full_bw_reached := true })
    else (false, s)

/-- `BBRAlgorithm.set_pacing_rate`. -/
def set_pacing_rate (s : BBRAlgorithm) : BBRAlgorithm :=
  { s with pacing_rate := max (s.bw_estimate * s.pacing_gain) 1000 }

/-- `BBRAlgorithm.set_cwnd`.  With `min_rtt` still infinite the source returns
without touching `cwnd`. -/
def set_cwnd (s : BBRAlgorithm) : BBRAlgorithm :=
  match s.min_rtt with
  | none => s
  | some m =>
      let bdp := s.bw_estimate * m
      let s := { s with cwnd := max (bdp * bbr_cwnd_gain) 4 }
      if s.state = .PROBE_RTT then { s with cwnd := max 4 bdp } else s

/-- `BBRAlgorithm.advance_cycle_phase`.  `now - cycle_stamp > inf` is false, so
with an unset `min_rtt` the cycle never advances. -/
def advance_cycle_phase (now : ℚ) (s : BBRAlgorithm) : BBRAlgorithm :=
  match s.min_rtt with
  | none => s
  | some m =>
      if now - s.cycle_stamp > m then
        let idx := (s.cycle_index + 1) % pacing_gain_cycle.length
        { s with
          cycle_index := idx
          pacing_gain := pacing_gain_cycle.getD idx 1
          cycle_stamp := now }
      else s

/-- `BBRAlgorithm.check_probe_rtt`. -/
def check_probe_rtt (now : ℚ) (s : BBRAlgorithm) : BBRAlgorithm :=
  if s.state ≠ .PROBE_RTT ∧ now - s.rtprop_stamp > bbr_rtprop_filterlen then
    { s with
      state := .PROBE_RTT
      pacing_gain := 1
      prior_cwnd := s.cwnd
      probe_rtt_done_stamp := now + bbr_probe_rtt_time }
  else s

/-- `BBRAlgorithm.handle_probe_rtt`. -/
def handle_probe_rtt (now : ℚ) (s : BBRAlgorithm) : BBRAlgorithm :=
  if now ≥ s.probe_rtt_done_stamp then
    let s := { s with rtprop_stamp := now }
    let s := if s.prior_cwnd > 0 then { s with cwnd := max s.cwnd s.prior_cwnd } else s
    { s with
      state := .PROBE_BW
      cycle_index := 0
      pacing_gain := pacing_gain_cycle.getD 0 1
      cycle_stamp := now }
  else s

/-- Python truthiness of an optional float: `None` and `0` are falsy. -/
def truthy : Option ℚ → Bool
  | none => false
  | some r => decide (r ≠ 0)

/-- The `if rtt: self.update_min_rtt(rtt)` statement of `on_ack_received`. -/
def ack_update_rtt (now : ℚ) (rtt : Option ℚ) (s : BBRAlgorithm) : BBRAlgorithm :=
  if truthy rtt = true then s.update_min_rtt now (rtt.getD 0) else s

/-- The `if elapsed_time > 0: self.update_bandwidth_estimate(...)` statement of
`on_ack_received`. -/
def ack_update_bw (delivered_bytes elapsed_time : ℚ) (s : BBRAlgorithm) : BBRAlgorithm :=
  if elapsed_time > 0 then s.update_bandwidth_estimate delivered_bytes elapsed_time else s

/-- The Drain-exit test `self.cwnd <= self.bw_estimate * self.min_rtt`.  While
`min_rtt` is still infinite the IEEE product `bw_estimate * inf` is `+inf`
(test true) for positive `bw_estimate`, `nan` (test false) for a zero
`bw_estimate`, and `-inf` (test false) for a negative one. -/
def drain_exit (s : BBRAlgorithm) : Bool :=
  match s.min_rtt with
  | none => decide (0 < s.bw_estimate)
  | some m => decide (s.cwnd ≤ s.bw_estimate * m)

/-- The state-machine block of `on_ack_received`. -/
def ack_state_machine (now : ℚ) (s : BBRAlgorithm) : BBRAlgorithm :=
  match s.state with
  | .STARTUP =>
      let s := { s with pacing_gain := bbr_high_gain }
      let p := s.check_startup_done
      if p.1 = true then { p.2 with state := .DRAIN, pacing_gain := bbr_drain_gain }
      else p.2
  | .DRAIN =>
      if s.drain_exit = true then
        { s with state := .PROBE_BW, cycle_index := 0, pacing_gain := 1, cycle_stamp := now }
      else s
  | .PROBE_BW => s.advance_cycle_phase now
  | .PROBE_RTT => s

/-- The ProbeRTT block of `on_ack_received`: `check_probe_rtt` followed by
`handle_probe_rtt` when the state is (now) `PROBE_RTT`. -/
def ack_probe_rtt (now : ℚ) (s : BBRAlgorithm) : BBRAlgorithm :=
  let s := s.check_probe_rtt now
  if s.state = .PROBE_RTT then s.handle_probe_rtt now else s

/-- `BBRAlgorithm.on_ack_received`.  The `ack_num` argument is unused by the
source body; `rtt = none` models the default `rtt=None`. -/
def on_ack_received (now : ℚ) (_ack_num : ℤ) (rtt : Option ℚ)
    (delivered_bytes elapsed_time : ℚ) (s : BBRAlgorithm) : BBRAlgorithm :=
  let s := s.ack_update_rtt now rtt
  let s := s.ack_update_bw delivered_bytes elapsed_time
  let s := s.ack_state_machine now
  let s := s.ack_probe_rtt now
  let s := s.set_pacing_rate
  let s := s.set_cwnd
  { s with packet_count := s.packet_count + 1 }

/-- One externally supplied ack event: the instant it happens plus the
arguments handed to `on_ack_received`. -/
structure AckEvent where
  now : ℚ
  ack_num : ℤ
  rtt : Option ℚ
  delivered_bytes : ℚ
  elapsed_time : ℚ
  deriving DecidableEq, Repr

/-- Replay a sequence of ack events against a BBR state. -/
def runAcks (s : BBRAlgorithm) (evs : List AckEvent) : BBRAlgorithm :=
  evs.foldl
    (fun s e => s.on_ack_received e.now e.ack_num e.rtt e.delivered_bytes e.elapsed_time) s

end BBRAlgorithm

/-- `AlgorithmType` enum of `adaptive_tcp_congestion.py`. -/
inductive AlgorithmType
  | RENO
  | CUBIC
  | TAHOE
  | BBR
  deriving DecidableEq, Repr

/-- `NetworkCondition` enum of `adaptive_tcp_congestion.py`. -/
inductive NetworkCondition
  | EXCELLENT
  | GOOD
  | CONGESTED
  | LOSSY
  | HIGH_BW
  deriving DecidableEq, Repr

/-- The controller's `self.algorithm` attribute: an instance of one of the four
algorithm classes. -/
inductive ActiveAlgorithm
  | reno (s : RenoAlgorithm)
  | cubic (s : CubicAlgorithm)
  | tahoe (s : TahoeAlgorithm)
  | bbr (s : BBRAlgorithm)
  deriving DecidableEq, Repr

namespace ActiveAlgorithm

/-- The kind of the held instance.  The source stores `self.algorithm_type`
separately, but every write to it is immediately followed by
`_initialize_algorithm()` (in `__init__` and in `switch_algorithm`), so the
tag and the instance can never disagree; the model therefore derives the tag
from the instance. -/
def tag : ActiveAlgorithm → AlgorithmType
  | reno _ => .RENO
  | cubic _ => .CUBIC
  | tahoe _ => .TAHOE
  | bbr _ => .BBR

/-- `getattr(self.algorithm, 'cwnd', 1.0)`: every algorithm class has `cwnd`,
so the default is never used. -/
def cwnd : ActiveAlgorithm → ℚ
  | reno s => s.cwnd
  | cubic s => s.cwnd
  | tahoe s => s.cwnd
  | bbr s => s.cwnd

/-- `getattr(self.algorithm, 'ssthresh', 65535)`: every algorithm class has
`ssthresh`, so the default is never used. -/
def ssthresh : ActiveAlgorithm → ℚ
  | reno s => s.ssthresh
  | cubic s => s.ssthresh
  | tahoe s => s.ssthresh
  | bbr s => s.ssthresh

/-- The two `hasattr`-guarded assignments of `switch_algorithm` that overwrite
the fresh instance's `cwnd` and `ssthresh`; both attributes exist on all four
classes. -/
def setWindow (c ss : ℚ) : ActiveAlgorithm → ActiveAlgorithm
  | reno s => reno { s with cwnd := c, ssthresh := ss }
  | cubic s => cubic { s with cwnd := c, ssthresh := ss }
  | tahoe s => tahoe { s with cwnd := c, ssthresh := ss }
  | bbr s => bbr { s with cwnd := c, ssthresh := ss }

/-- The plain call `self.algorithm.on_ack_received(ack_num)`: for BBR the
remaining parameters take their declared defaults
(`rtt=None, delivered_bytes=0, elapsed_time=0`). -/
def on_ack_plain (now : ℚ) (ack_num : ℤ) : ActiveAlgorithm → ActiveAlgorithm
  | reno s => reno (s.on_ack_received ack_num)
  | cubic s => cubic (s.on_ack_received now)
  | tahoe s => tahoe s.on_ack_received
  | bbr s => bbr (s.on_ack_received now ack_num none 0 0)

/-- The BBR-specific call
`self.algorithm.on_ack_received(ack_num, rtt=rtt, delivered_bytes=1024,
elapsed_time=0.001)`.  The controller only takes this path after checking
`self.algorithm_type == AlgorithmType.BBR`, so the non-BBR arms are
unreachable; they fall back to the plain call for totality. -/
def on_ack_with_samples (now : ℚ) (ack_num : ℤ) (rtt : Option ℚ) :
    ActiveAlgorithm → ActiveAlgorithm
  | bbr s => bbr (s.on_ack_received now ack_num rtt 1024 (1 / 1000))
  | a => a.on_ack_plain now ack_num

/-- The dispatch of the controller's `on_loss_detected`:
`if hasattr(self.algorithm, 'on_loss_detected'): ...
elif hasattr(self.algorithm, 'on_timeout'): ...`.
Reno defines neither method, so nothing is forwarded; Cubic defines
`on_loss_detected`; Tahoe only `on_timeout`; BBR's `on_loss_detected` is a
no-op (`pass`). -/
def on_loss (now : ℚ) (cbrt : ℚ → ℚ) : ActiveAlgorithm → ActiveAlgorithm
  | reno s => reno s
  | cubic s => cubic (s.on_loss_detected now cbrt)
  | tahoe s => tahoe s.on_timeout
  | bbr s => bbr s

end ActiveAlgorithm

/-- One row of `self.algorithm_performance`. -/
structure PerformanceRecord where
  switches : ℕ
  total_time : ℚ
  performance_score : ℚ
  deriving DecidableEq, Repr

/-- `self.algorithm_performance`: a dictionary holding exactly one record per
algorithm kind. -/
structure PerformanceMap where
  reno : PerformanceRecord
  cubic : PerformanceRecord
  tahoe : PerformanceRecord
  bbr : PerformanceRecord
  deriving DecidableEq, Repr

namespace PerformanceMap

/-- Dictionary lookup `self.algorithm_performance[k]`. -/
def get (m : PerformanceMap) : AlgorithmType → PerformanceRecord
  | .RENO => m.reno
  | .CUBIC => m.cubic
  | .TAHOE => m.tahoe
  | .BBR => m.bbr

/-- Replace the record of one kind. -/
def set (m : PerformanceMap) (k : AlgorithmType) (r : PerformanceRecord) : PerformanceMap :=
  match k with
  | .RENO => { m with reno := r }
  | .CUBIC => { m with cubic := r }
  | .TAHOE => { m with tahoe := r }
  | .BBR => { m with bbr := r }

/-- `self.algorithm_performance[k]["performance_score"] = v`. -/
def setScore (m : PerformanceMap) (k : AlgorithmType) (v : ℚ) : PerformanceMap :=
  m.set k { m.get k with performance_score := v }

/-- `self.algorithm_performance[k]["total_time"] += dt`. -/
def addTotalTime (m : PerformanceMap) (k : AlgorithmType) (dt : ℚ) : PerformanceMap :=
  m.set k { m.get k with total_time := (m.get k).total_time + dt }

/-- `self.algorithm_performance[k]["switches"] += 1`. -/
def incSwitches (m : PerformanceMap) (k : AlgorithmType) : PerformanceMap :=
  m.set k { m.get k with switches := (m.get k).switches + 1 }

/-- The all-zero initial map of `__init__`. -/
def initial : PerformanceMap :=
  { reno := ⟨0, 0, 0⟩, cubic := ⟨0, 0, 0⟩, tahoe := ⟨0, 0, 0⟩, bbr := ⟨0, 0, 0⟩ }

end PerformanceMap

/-- `AdaptiveTCPCongestionControl` (`backend/models/adaptive_tcp_congestion.py`).
The constant instance attributes (`switch_cooldown`, the four thresholds) are
never reassigned by the source, so they appear below as plain definitions. -/
structure AdaptiveTCPCongestionControl where
  algorithm : ActiveAlgorithm
  packets_sent : ℕ
  packets_lost : ℕ
  rtt_history : List ℚ
  bandwidth_history : List ℚ
  start_time : ℚ
  last_switch_time : ℚ
  algorithm_performance : PerformanceMap
  deriving DecidableEq, Repr

/-- Python's `xs[-n:]`: the last `n` elements (all of them when `n` exceeds the
length). -/
def lastN (n : ℕ) (l : List ℚ) : List ℚ := l.drop (l.length - n)

namespace AdaptiveTCPCongestionControl

/-- `self.switch_cooldown = 10.0`. -/
def switch_cooldown : ℚ := 10

/-- `self.rtt_threshold_high = 100.0` (ms). -/
def rtt_threshold_high : ℚ := 100

/-- `self.rtt_threshold_excellent = 20.0` (ms). -/
def rtt_threshold_excellent : ℚ := 20

/-- `self.loss_threshold_high = 0.02`. -/
def loss_threshold_high : ℚ := 1 / 50

/-- `self.loss_threshold_low = 0.001`. -/
def loss_threshold_low : ℚ := 1 / 1000

/-- `self.bandwidth_threshold_high = 10 * 1024 * 1024` (bytes/s). -/
def bandwidth_threshold_high : ℚ := 10485760

/-- `_initialize_algorithm`: a fresh instance of the selected class. -/
def initAlgorithm : AlgorithmType → ActiveAlgorithm
  | .RENO => .reno RenoAlgorithm.init
  | .CUBIC => .cubic CubicAlgorithm.init
  | .TAHOE => .tahoe TahoeAlgorithm.init
  | .BBR => .bbr BBRAlgorithm.init

/-- `AdaptiveTCPCongestionControl.__init__(initial_algorithm)`; `now` models
the two `time.time()` reads that seed `start_time` and `last_switch_time`. -/
def init (now : ℚ) (initial_algorithm : AlgorithmType) : AdaptiveTCPCongestionControl :=
  { algorithm := initAlgorithm initial_algorithm
    packets_sent := 0
    packets_lost := 0
    rtt_history := []
    bandwidth_history := []
    start_time := now
    last_switch_time := now
    algorithm_performance := .initial }

/-- Derived `self.algorithm_type` (see `ActiveAlgorithm.tag`). -/
def algorithm_type (st : AdaptiveTCPCongestionControl) : AlgorithmType :=
  st.algorithm.tag

/-- `get_packet_loss_rate`. -/
def get_packet_loss_rate (st : AdaptiveTCPCongestionControl) : ℚ :=
  if st.packets_sent = 0 then 0
  else (st.packets_lost : ℚ) / (st.packets_sent : ℚ)

/-- `detect_network_condition`. -/
def detect_network_condition (st : AdaptiveTCPCongestionControl) : NetworkCondition :=
  if st.rtt_history.length < 5 then .GOOD
  else
    let recent_rtt := (lastN 10 st.rtt_history).sum / ((min st.rtt_history.length 10 : ℕ) : ℚ)
    let loss_rate := st.get_packet_loss_rate
    let recent_bandwidth :=
      if st.bandwidth_history = [] then 0
      else (lastN 5 st.bandwidth_history).sum / ((min st.bandwidth_history.length 5 : ℕ) : ℚ)
    if loss_rate > loss_threshold_high then .LOSSY
    else if recent_rtt > rtt_threshold_high then
      if recent_bandwidth > bandwidth_threshold_high then .HIGH_BW
      else .CONGESTED
    else if recent_rtt < rtt_threshold_excellent ∧ loss_rate < loss_threshold_low then .EXCELLENT
    else .GOOD

/-- `get_optimal_algorithm`. -/
def get_optimal_algorithm : NetworkCondition → AlgorithmType
  | .EXCELLENT => .BBR
  | .GOOD => .CUBIC
  | .CONGESTED => .RENO
  | .LOSSY => .TAHOE
  | .HIGH_BW => .CUBIC

/-- `should_switch_algorithm`.  The score comparison mirrors the source
(`1.1` is taken at its decimal value `11/10`); note that both of its branches
return `True`. -/
def should_switch_algorithm (now : ℚ) (target_algorithm : AlgorithmType)
    (st : AdaptiveTCPCongestionControl) : Bool :=
  if now - st.last_switch_time < switch_cooldown then false
  else if target_algorithm = st.algorithm_type then false
  else
    let current_perf := (st.algorithm_performance.get st.algorithm_type).performance_score
    let target_perf := (st.algorithm_performance.get target_algorithm).performance_score
    if target_perf > current_perf * (11 / 10) ∨ current_perf < 1 / 2 then true
    else true

/-- `_calculate_rtt_variance`.  The source returns `variance ** 0.5`, a real
square root; the model applies the parameter `sqrtq` to exactly the source's
radicand. -/
def calculate_rtt_variance (sqrtq : ℚ → ℚ) (st : AdaptiveTCPCongestionControl) : ℚ :=
  if st.rtt_history.length < 3 then 0
  else
    let recent_rtts := lastN 10 st.rtt_history
    let mean_rtt := recent_rtts.sum / (recent_rtts.length : ℚ)
    let variance := (recent_rtts.map fun rtt => (rtt - mean_rtt) ^ 2).sum /
      (recent_rtts.length : ℚ)
    sqrtq variance

/-- `calculate_performance_score`. -/
def calculate_performance_score (sqrtq : ℚ → ℚ) (st : AdaptiveTCPCongestionControl) : ℚ :=
  if st.packets_sent = 0 then 1 / 2
  else
    let loss_rate := st.get_packet_loss_rate
    let avg_bandwidth :=
      if st.bandwidth_history = [] then 0
      else (lastN 10 st.bandwidth_history).sum / ((min st.bandwidth_history.length 10 : ℕ) : ℚ)
    let rtt_stability := 1 / (1 + st.calculate_rtt_variance sqrtq)
    let throughput_score := min (avg_bandwidth / 1000000) 1
    let loss_penalty := 1 - min (loss_rate * 50) 1
    throughput_score * (1 / 2) + loss_penalty * (3 / 10) + rtt_stability * (1 / 5)

/-- `switch_algorithm`. -/
def switch_algorithm (now : ℚ) (new_algorithm : AlgorithmType)
    (st : AdaptiveTCPCongestionControl) : AdaptiveTCPCongestionControl :=
  if new_algorithm = st.algorithm_type then st
  else
    let current_cwnd := st.algorithm.cwnd
    let current_ssthresh := st.algorithm.ssthresh
    let perf := st.algorithm_performance.addTotalTime st.algorithm_type
      (now - st.last_switch_time)
    let perf := perf.incSwitches new_algorithm
    { st with
      algorithm := (initAlgorithm new_algorithm).setWindow current_cwnd current_ssthresh
      algorithm_performance := perf
      last_switch_time := now }

/-- `adaptive_algorithm_switch`. -/
def adaptive_algorithm_switch (now : ℚ) (sqrtq : ℚ → ℚ) (rtt bandwidth : ℚ)
    (st : AdaptiveTCPCongestionControl) : AdaptiveTCPCongestionControl :=
  let st := { st with
    rtt_history := st.rtt_history ++ [rtt]
    bandwidth_history := st.bandwidth_history ++ [bandwidth] }
  let st := { st with
    rtt_history :=
      if st.rtt_history.length > 50 then lastN 50 st.rtt_history else st.rtt_history }
  let st := { st with
    bandwidth_history :=
      if st.bandwidth_history.length > 50 then lastN 50 st.bandwidth_history
      else st.bandwidth_history }
  let current_score := st.calculate_performance_score sqrtq
  let st := { st with
    algorithm_performance :=
      st.algorithm_performance.setScore st.algorithm_type current_score }
  let condition := st.detect_network_condition
  let optimal_algorithm := get_optimal_algorithm condition
  if st.should_switch_algorithm now optimal_algorithm then
    st.switch_algorithm now optimal_algorithm
  else st

/-- `AdaptiveTCPCongestionControl.on_ack_received(ack_num, rtt, bandwidth)`.
`rtt`/`bandwidth` default to `None`; both truthiness tests (`if ... and ...:`)
follow Python semantics. -/
def on_ack_received (now : ℚ) (sqrtq : ℚ → ℚ) (ack_num : ℤ)
    (rtt bandwidth : Option ℚ) (st : AdaptiveTCPCongestionControl) :
    AdaptiveTCPCongestionControl :=
  let st :=
    if st.algorithm_type = .BBR ∧ BBRAlgorithm.truthy rtt = true ∧
        BBRAlgorithm.truthy bandwidth = true then
      { st with algorithm := st.algorithm.on_ack_with_samples now ack_num rtt }
    else
      { st with algorithm := st.algorithm.on_ack_plain now ack_num }
  if BBRAlgorithm.truthy rtt = true ∧ BBRAlgorithm.truthy bandwidth = true then
    st.adaptive_algorithm_switch now sqrtq (rtt.getD 0) (bandwidth.getD 0)
  else st

/-- `AdaptiveTCPCongestionControl.on_loss_detected`. -/
def on_loss_detected (now : ℚ) (cbrt : ℚ → ℚ) (st : AdaptiveTCPCongestionControl) :
    AdaptiveTCPCongestionControl :=
  { st with
    packets_lost := st.packets_lost + 1
    algorithm := st.algorithm.on_loss now cbrt }

/-- `AdaptiveTCPCongestionControl.on_data_sent` (the `bytes_sent` argument is
unused by the source body). -/
def on_data_sent (st : AdaptiveTCPCongestionControl) : AdaptiveTCPCongestionControl :=
  { st with packets_sent := st.packets_sent + 1 }

end AdaptiveTCPCongestionControl

/-- A recorded algorithm switch: the instant `switch_algorithm` ran and whether
it was a direct (manual) call or one issued by `adaptive_algorithm_switch`. -/
structure SwitchEvent where
  time : ℚ
  manual : Bool
  deriving DecidableEq, Repr

/-- One externally triggered controller operation.  `ack` carries the optional
`rtt`/`bandwidth` samples of `on_ack_received`; `manualSwitch` is a direct call
of `switch_algorithm`. -/
inductive ControllerOp
  | ack (now : ℚ) (ack_num : ℤ) (rtt bandwidth : Option ℚ)
  | loss (now : ℚ)
  | dataSent
  | manualSwitch (now : ℚ) (target : AlgorithmType)
  deriving DecidableEq, Repr

namespace AdaptiveTCPCongestionControl

/-- Execute one controller operation; the second component records the switch
performed during the operation, if any.  A switch is exactly a change of the
active algorithm kind: `switch_algorithm` replaces the instance precisely when
its target differs from the current kind. -/
def stepOp (sqrtq cbrt : ℚ → ℚ) (op : ControllerOp) (st : AdaptiveTCPCongestionControl) :
    AdaptiveTCPCongestionControl × Option SwitchEvent :=
  match op with
  | .ack now ack_num rtt bandwidth =>
      let st' := st.on_ack_received now sqrtq ack_num rtt bandwidth
      (st', if st'.algorithm_type ≠ st.algorithm_type then some ⟨now, false⟩ else none)
  | .loss now => (st.on_loss_detected now cbrt, none)
  | .dataSent => (st.on_data_sent, none)
  | .manualSwitch now target =>
      let st' := st.switch_algorithm now target
      (st', if st'.algorithm_type ≠ st.algorithm_type then some ⟨now, true⟩ else none)

/-- Replay a sequence of controller operations, collecting the switches that
occur, in order. -/
def runOps (sqrtq cbrt : ℚ → ℚ) (st : AdaptiveTCPCongestionControl) :
    List ControllerOp → AdaptiveTCPCongestionControl × List SwitchEvent
  | [] => (st, [])
  | op :: rest =>
      let p := stepOp sqrtq cbrt op st
      let q := runOps sqrtq cbrt p.1 rest
      (q.1, p.2.toList ++ q.2)

end AdaptiveTCPCongestionControl

/-- `spaced t evs` says: walking the switch list `evs` from a last-switch
instant `t`, every switch that is not a manual call happens at least 10
seconds after the switch (of either kind) before it. -/
def spaced : ℚ → List SwitchEvent → Prop
  | _, [] => True
  | t, e :: rest => (e.manual = true ∨ 10 ≤ e.time - t) ∧ spaced e.time rest

/-- Arithmetic mean of a list of rationals (for the empty list `ℚ` division by
zero yields `0`, matching the `0` the source substitutes for an empty
bandwidth history). -/
def listAvg (l : List ℚ) : ℚ := l.sum / (l.length : ℚ)

/-- Modelled from the spec wording of the classifier (spec section 4.2 and the
claim): the first matching label among, in order — Lossy if
`loss_rate > 0.02`; else HighBandwidthDelay if the average of the last 10 RTT
samples exceeds 100 ms and the average of the last 5 bandwidth samples exceeds
10 MB/s; else Congested if the average RTT exceeds 100 ms; else Excellent if
the average RTT is below 20 ms and `loss_rate < 0.001`; else Good; and with
fewer than 5 RTT samples always Good. -/
def specClassify (st : AdaptiveTCPCongestionControl) : NetworkCondition :=
  if st.rtt_history.length < 5 then .GOOD
  else if st.get_packet_loss_rate > 1 / 50 then .LOSSY
  else if listAvg (lastN 10 st.rtt_history) > 100 ∧
      listAvg (lastN 5 st.bandwidth_history) > 10485760 then .HIGH_BW
  else if listAvg (lastN 10 st.rtt_history) > 100 then .CONGESTED
  else if listAvg (lastN 10 st.rtt_history) < 20 ∧ st.get_packet_loss_rate < 1 / 1000 then
    .EXCELLENT
  else .GOOD

namespace ActiveAlgorithm

theorem setWindow_cwnd (a : ActiveAlgorithm) (c ss : ℚ) : (a.setWindow c ss).cwnd = c := by
  cases a <;> rfl

theorem setWindow_ssthresh (a : ActiveAlgorithm) (c ss : ℚ) :
    (a.setWindow c ss).ssthresh = ss := by
  cases a <;> rfl

theorem setWindow_tag (a : ActiveAlgorithm) (c ss : ℚ) : (a.setWindow c ss).tag = a.tag := by
  cases a <;> rfl

theorem on_ack_plain_tag (now : ℚ) (ack : ℤ) (a : ActiveAlgorithm) :
    (a.on_ack_plain now ack).tag = a.tag := by
  cases a <;> rfl

theorem on_ack_with_samples_tag (now : ℚ) (ack : ℤ) (rtt : Option ℚ) (a : ActiveAlgorithm) :
    (a.on_ack_with_samples now ack rtt).tag = a.tag := by
  cases a with
  | reno s => exact on_ack_plain_tag now ack (.reno s)
  | cubic s => exact on_ack_plain_tag now ack (.cubic s)
  | tahoe s => exact on_ack_plain_tag now ack (.tahoe s)
  | bbr s => rfl

theorem on_loss_tag (now : ℚ) (cbrt : ℚ → ℚ) (a : ActiveAlgorithm) :
    (a.on_loss now cbrt).tag = a.tag := by
  cases a <;> rfl

end ActiveAlgorithm

theorem initAlgorithm_tag (k : AlgorithmType) :
    (AdaptiveTCPCongestionControl.initAlgorithm k).tag = k := by
  cases k <;> rfl

/-- C1.  Hot-swap continuity: for every controller state and every target kind
`B` different from the active kind, immediately after `switch_algorithm(B)`
the new active algorithm's `cwnd` and `ssthresh` equal the outgoing
algorithm's `cwnd` and `ssthresh` at the moment of the switch, and the active
kind is now `B`. -/
theorem claim_C1_switch_continuity (st : AdaptiveTCPCongestionControl) (now : ℚ)
    (B : AlgorithmType) (h : B ≠ st.algorithm_type) :
    (st.switch_algorithm now B).algorithm.cwnd = st.algorithm.cwnd ∧
    (st.switch_algorithm now B).algorithm.ssthresh = st.algorithm.ssthresh ∧
    (st.switch_algorithm now B).algorithm_type = B := by
  unfold AdaptiveTCPCongestionControl.switch_algorithm
  rw [if_neg h]
  refine ⟨?_, ?_, ?_⟩
  · exact ActiveAlgorithm.setWindow_cwnd _ _ _
  · exact ActiveAlgorithm.setWindow_ssthresh _ _ _
  · show ((AdaptiveTCPCongestionControl.initAlgorithm B).setWindow _ _).tag = B
    rw [ActiveAlgorithm.setWindow_tag, initAlgorithm_tag]

/-- Witness for C1 at a concrete input: a fresh Reno controller switched to
Cubic keeps its window and threshold. -/
theorem claim_C1_switch_continuity_witness :
    ((AdaptiveTCPCongestionControl.init 0 .RENO).switch_algorithm 5 .CUBIC).algorithm.cwnd =
        (AdaptiveTCPCongestionControl.init 0 .RENO).algorithm.cwnd ∧
    ((AdaptiveTCPCongestionControl.init 0 .RENO).switch_algorithm 5 .CUBIC).algorithm.ssthresh =
        (AdaptiveTCPCongestionControl.init 0 .RENO).algorithm.ssthresh ∧
    ((AdaptiveTCPCongestionControl.init 0 .RENO).switch_algorithm 5 .CUBIC).algorithm_type =
        AlgorithmType.CUBIC :=
  claim_C1_switch_continuity (AdaptiveTCPCongestionControl.init 0 .RENO) 5 .CUBIC (by decide)

/-- C2.  Reno fast recovery: with three duplicate acks on record, the next ack
enters fast recovery with `ssthresh = max(cwnd/2, 2)`,
`cwnd = ssthresh + 3` and the ack number recorded as `recover`; while in fast
recovery each further duplicate ack (an ack not beyond `recover`) adds exactly
1 to `cwnd`; and the first ack beyond `recover` sets `cwnd = ssthresh` and
returns to congestion avoidance. -/
theorem claim_C2_reno_fast_recovery :
    (∀ (s : RenoAlgorithm) (ack : ℤ), s.state ≠ .fast_recovery → 3 ≤ s.duplicate_acks →
      (s.on_ack_received ack).state = .fast_recovery ∧
      (s.on_ack_received ack).ssthresh = max (s.cwnd / 2) 2 ∧
      (s.on_ack_received ack).cwnd = (s.on_ack_received ack).ssthresh + 3 ∧
      (s.on_ack_received ack).recover = ack) ∧
    (∀ (s : RenoAlgorithm) (ack : ℤ), s.state = .fast_recovery → ack ≤ s.recover →
      (s.on_ack_received ack).cwnd = s.cwnd + 1 ∧
      (s.on_ack_received ack).state = .fast_recovery) ∧
    (∀ (s : RenoAlgorithm) (ack : ℤ), s.state = .fast_recovery → s.recover < ack →
      (s.on_ack_received ack).cwnd = s.ssthresh ∧
      (s.on_ack_received ack).state = .congestion_avoidance) := by
  refine ⟨?_, ?_, ?_⟩
  · intro s ack h1 h2
    unfold RenoAlgorithm.on_ack_received
    rw [if_neg h1, if_pos h2]
    unfold RenoAlgorithm.enter_fast_recovery
    exact ⟨rfl, rfl, rfl, rfl⟩
  · intro s ack h1 h2
    unfold RenoAlgorithm.on_ack_received
    rw [if_pos h1, if_neg (not_lt.mpr h2)]
    exact ⟨rfl, h1⟩
  · intro s ack h1 h2
    unfold RenoAlgorithm.on_ack_received
    rw [if_pos h1, if_pos h2]
    exact ⟨rfl, rfl⟩

/-- Witness for C2 at concrete inputs: a state with `cwnd = 20` and three
duplicate acks on record enters fast recovery on ack 7
(`ssthresh = 10`, `cwnd = 13`); a further duplicate ack adds one; an ack
beyond `recover` deflates to `ssthresh`. -/
theorem claim_C2_reno_fast_recovery_witness :
    ((RenoAlgorithm.on_ack_received 7
        { cwnd := 20, ssthresh := 65535, state := .congestion_avoidance,
          duplicate_acks := 3, recover := 0 }).state = .fast_recovery ∧
      (RenoAlgorithm.on_ack_received 7
        { cwnd := 20, ssthresh := 65535, state := .congestion_avoidance,
          duplicate_acks := 3, recover := 0 }).ssthresh = max (20 / 2) 2 ∧
      (RenoAlgorithm.on_ack_received 7
        { cwnd := 20, ssthresh := 65535, state := .congestion_avoidance,
          duplicate_acks := 3, recover := 0 }).cwnd =
        (RenoAlgorithm.on_ack_received 7
          { cwnd := 20, ssthresh := 65535, state := .congestion_avoidance,
            duplicate_acks := 3, recover := 0 }).ssthresh + 3 ∧
      (RenoAlgorithm.on_ack_received 7
        { cwnd := 20, ssthresh := 65535, state := .congestion_avoidance,
          duplicate_acks := 3, recover := 0 }).recover = 7) ∧
    ((RenoAlgorithm.on_ack_received 5
        { cwnd := 13, ssthresh := 10, state := .fast_recovery,
          duplicate_acks := 3, recover := 7 }).cwnd = 13 + 1 ∧
      (RenoAlgorithm.on_ack_received 5
        { cwnd := 13, ssthresh := 10, state := .fast_recovery,
          duplicate_acks := 3, recover := 7 }).state = .fast_recovery) ∧
    ((RenoAlgorithm.on_ack_received 8
        { cwnd := 14, ssthresh := 10, state := .fast_recovery,
          duplicate_acks := 3, recover := 7 }).cwnd = 10 ∧
      (RenoAlgorithm.on_ack_received 8
        { cwnd := 14, ssthresh := 10, state := .fast_recovery,
          duplicate_acks := 3, recover := 7 }).state = .congestion_avoidance) :=
  ⟨claim_C2_reno_fast_recovery.1 _ 7 (by decide) (by decide),
   claim_C2_reno_fast_recovery.2.1 _ 5 rfl (by decide),
   claim_C2_reno_fast_recovery.2.2 _ 8 rfl (by decide)⟩

/-- C5.  Eager switch policy: `should_switch_algorithm(target)` returns true
exactly when the target differs from the active kind and the 10-second
cooldown has elapsed; in particular the recorded performance scores never
change the result (they do not occur in the right-hand side, which holds for
every state, hence for arbitrary scores). -/
theorem claim_C5_eager_switch_policy (st : AdaptiveTCPCongestionControl) (now : ℚ)
    (target : AlgorithmType) :
    st.should_switch_algorithm now target = true ↔
      (target ≠ st.algorithm_type ∧ ¬ (now - st.last_switch_time < 10)) := by
  unfold AdaptiveTCPCongestionControl.should_switch_algorithm
    AdaptiveTCPCongestionControl.switch_cooldown
  split_ifs with h1 h2 <;> simp_all

/-- C9.  Loss-rate totality: `get_packet_loss_rate` returns 0 when no packet
was sent, the exact quotient `packets_lost / packets_sent` otherwise, and its
result is never negative. -/
theorem claim_C9_loss_rate_total (st : AdaptiveTCPCongestionControl) :
    (st.packets_sent = 0 → st.get_packet_loss_rate = 0) ∧
    (st.packets_sent ≠ 0 →
      st.get_packet_loss_rate = (st.packets_lost : ℚ) / (st.packets_sent : ℚ)) ∧
    0 ≤ st.get_packet_loss_rate := by
  unfold AdaptiveTCPCongestionControl.get_packet_loss_rate
  refine ⟨fun h => by rw [if_pos h], fun h => by rw [if_neg h], ?_⟩
  split_ifs
  · exact le_refl 0
  · exact div_nonneg (Nat.cast_nonneg _) (Nat.cast_nonneg _)

/-- Witness for C9 at concrete inputs: a fresh controller reports loss rate 0;
after one sent packet and one loss the rate is the nonnegative quotient 1. -/
theorem claim_C9_loss_rate_total_witness :
    (AdaptiveTCPCongestionControl.init 0 .RENO).get_packet_loss_rate = 0 ∧
    ((AdaptiveTCPCongestionControl.init 0 .RENO).on_data_sent.on_loss_detected 1
        (fun _ => 0)).get_packet_loss_rate =
      (((AdaptiveTCPCongestionControl.init 0
            .RENO).on_data_sent.on_loss_detected 1 (fun _ => 0)).packets_lost : ℚ) /
        (((AdaptiveTCPCongestionControl.init 0
            .RENO).on_data_sent.on_loss_detected 1 (fun _ => 0)).packets_sent : ℚ) ∧
    0 ≤ ((AdaptiveTCPCongestionControl.init 0 .RENO).on_data_sent.on_loss_detected 1
        (fun _ => 0)).get_packet_loss_rate :=
  ⟨(claim_C9_loss_rate_total _).1 rfl,
   (claim_C9_loss_rate_total _).2.1 (by decide),
   (claim_C9_loss_rate_total _).2.2⟩

/-- C10.  Frame effect of the gated adaptive path: an `on_ack_received` call
in which `rtt` or `bandwidth` is absent or zero leaves the RTT history, the
bandwidth history, the performance records, both packet counters, the active
algorithm kind, and `last_switch_time` unchanged (so no hot-swap can occur on
such a call); only the held algorithm instance is updated. -/
theorem claim_C10_gated_ack_frame (st : AdaptiveTCPCongestionControl) (now : ℚ)
    (sqrtq : ℚ → ℚ) (ack : ℤ) (rtt bandwidth : Option ℚ)
    (h : BBRAlgorithm.truthy rtt = false ∨ BBRAlgorithm.truthy bandwidth = false) :
    (st.on_ack_received now sqrtq ack rtt bandwidth).rtt_history = st.rtt_history ∧
    (st.on_ack_received now sqrtq ack rtt bandwidth).bandwidth_history =
      st.bandwidth_history ∧
    (st.on_ack_received now sqrtq ack rtt bandwidth).algorithm_performance =
      st.algorithm_performance ∧
    (st.on_ack_received now sqrtq ack rtt bandwidth).packets_sent = st.packets_sent ∧
    (st.on_ack_received now sqrtq ack rtt bandwidth).packets_lost = st.packets_lost ∧
    (st.on_ack_received now sqrtq ack rtt bandwidth).algorithm_type = st.algorithm_type ∧
    (st.on_ack_received now sqrtq ack rtt bandwidth).last_switch_time =
      st.last_switch_time := by
  have hcond : ¬ (BBRAlgorithm.truthy rtt = true ∧ BBRAlgorithm.truthy bandwidth = true) := by
    rcases h with h | h <;> simp [h]
  unfold AdaptiveTCPCongestionControl.on_ack_received
  rw [if_neg hcond]
  split_ifs with h2
  · exact ⟨rfl, rfl, rfl, rfl, rfl,
      by simpa [AdaptiveTCPCongestionControl.algorithm_type] using
        ActiveAlgorithm.on_ack_with_samples_tag now ack rtt st.algorithm, rfl⟩
  · exact ⟨rfl, rfl, rfl, rfl, rfl,
      by simpa [AdaptiveTCPCongestionControl.algorithm_type] using
        ActiveAlgorithm.on_ack_plain_tag now ack st.algorithm, rfl⟩

/-- Witness for C10 at a concrete input: an ack with a present bandwidth but
absent rtt leaves every controller-level field of a fresh Reno controller
unchanged. -/
theorem claim_C10_gated_ack_frame_witness :
    ((AdaptiveTCPCongestionControl.init 0 .RENO).on_ack_received 1 (fun _ => 0) 7 none
        (some 5)).rtt_history = (AdaptiveTCPCongestionControl.init 0 .RENO).rtt_history ∧
    ((AdaptiveTCPCongestionControl.init 0 .RENO).on_ack_received 1 (fun _ => 0) 7 none
        (some 5)).bandwidth_history =
      (AdaptiveTCPCongestionControl.init 0 .RENO).bandwidth_history ∧
    ((AdaptiveTCPCongestionControl.init 0 .RENO).on_ack_received 1 (fun _ => 0) 7 none
        (some 5)).algorithm_performance =
      (AdaptiveTCPCongestionControl.init 0 .RENO).algorithm_performance ∧
    ((AdaptiveTCPCongestionControl.init 0 .RENO).on_ack_received 1 (fun _ => 0) 7 none
        (some 5)).packets_sent = (AdaptiveTCPCongestionControl.init 0 .RENO).packets_sent ∧
    ((AdaptiveTCPCongestionControl.init 0 .RENO).on_ack_received 1 (fun _ => 0) 7 none
        (some 5)).packets_lost = (AdaptiveTCPCongestionControl.init 0 .RENO).packets_lost ∧
    ((AdaptiveTCPCongestionControl.init 0 .RENO).on_ack_received 1 (fun _ => 0) 7 none
        (some 5)).algorithm_type =
      (AdaptiveTCPCongestionControl.init 0 .RENO).algorithm_type ∧
    ((AdaptiveTCPCongestionControl.init 0 .RENO).on_ack_received 1 (fun _ => 0) 7 none
        (some 5)).last_switch_time =
      (AdaptiveTCPCongestionControl.init 0 .RENO).last_switch_time :=
  claim_C10_gated_ack_frame (AdaptiveTCPCongestionControl.init 0 .RENO) 1 (fun _ => 0) 7
    none (some 5) (Or.inl rfl)

/-- C8.  Cubic loss response: after `on_loss_detected` from `cwnd = c` the
state has `wmax = c`, `cwnd = 0.7 * c` and `ssthresh` equal to the reduced
window. -/
theorem claim_C8_cubic_loss (now : ℚ) (cbrt : ℚ → ℚ) (s : CubicAlgorithm) :
    (s.on_loss_detected now cbrt).wmax = s.cwnd ∧
    (s.on_loss_detected now cbrt).cwnd = s.cwnd * (7 / 10) ∧
    (s.on_loss_detected now cbrt).ssthresh = (s.on_loss_detected now cbrt).cwnd :=
  ⟨rfl, rfl, rfl⟩

theorem lastN_length (n : ℕ) (l : List ℚ) : (lastN n l).length = min l.length n := by
  simp only [lastN, List.length_drop]
  omega

theorem code_avg_eq (n : ℕ) (l : List ℚ) :
    (lastN n l).sum / ((min l.length n : ℕ) : ℚ) = listAvg (lastN n l) := by
  unfold listAvg
  rw [lastN_length]

theorem code_bw_avg (l : List ℚ) :
    (if l = [] then (0 : ℚ) else (lastN 5 l).sum / ((min l.length 5 : ℕ) : ℚ)) =
      listAvg (lastN 5 l) := by
  split_ifs with h
  · subst h
    simp [lastN, listAvg]
  · exact code_avg_eq 5 l

/-- C4.  Classifier decision order: `detect_network_condition` computes exactly
the first matching label, in the order stated by the specification
(`specClassify`), over the average of the last 10 RTT samples, the average of
the last 5 bandwidth samples and the packet-loss rate; with fewer than 5 RTT
samples it is always `GOOD`. -/
theorem claim_C4_classifier_order (st : AdaptiveTCPCongestionControl) :
    st.detect_network_condition = specClassify st := by
  by_cases h5 : st.rtt_history.length < 5
  · unfold AdaptiveTCPCongestionControl.detect_network_condition specClassify
    rw [if_pos h5, if_pos h5]
  · simp only [AdaptiveTCPCongestionControl.detect_network_condition, specClassify,
      AdaptiveTCPCongestionControl.loss_threshold_high,
      AdaptiveTCPCongestionControl.rtt_threshold_high,
      AdaptiveTCPCongestionControl.rtt_threshold_excellent,
      AdaptiveTCPCongestionControl.loss_threshold_low,
      AdaptiveTCPCongestionControl.bandwidth_threshold_high,
      code_avg_eq, code_bw_avg, if_neg h5]
    split_ifs <;> first
      | rfl
      | tauto
      | (simp_all [listAvg, lastN]; try linarith)


namespace BBRAlgorithm

theorem ack_update_rtt_cwnd (now : ℚ) (rtt : Option ℚ) (s : BBRAlgorithm) :
    (s.ack_update_rtt now rtt).cwnd = s.cwnd := by
  unfold ack_update_rtt update_min_rtt
  split_ifs <;> rfl

theorem ack_update_bw_cwnd (d e : ℚ) (s : BBRAlgorithm) :
    (s.ack_update_bw d e).cwnd = s.cwnd := by
  unfold ack_update_bw update_bandwidth_estimate
  dsimp only
  split_ifs <;> rfl

theorem check_startup_done_cwnd (s : BBRAlgorithm) : (s.check_startup_done).2.cwnd = s.cwnd := by
  unfold check_startup_done
  dsimp only
  split_ifs <;> rfl

theorem advance_cycle_phase_cwnd (now : ℚ) (s : BBRAlgorithm) :
    (s.advance_cycle_phase now).cwnd = s.cwnd := by
  unfold advance_cycle_phase
  cases hm : s.min_rtt
  · rfl
  · dsimp only
    split_ifs <;> rfl

theorem ack_state_machine_cwnd (now : ℚ) (s : BBRAlgorithm) :
    (s.ack_state_machine now).cwnd = s.cwnd := by
  unfold ack_state_machine
  cases hs : s.state
  · dsimp only
    split_ifs
    · exact check_startup_done_cwnd _
    · exact check_startup_done_cwnd _
  · dsimp only
    split_ifs <;> rfl
  · exact advance_cycle_phase_cwnd now s
  · rfl

theorem check_probe_rtt_cwnd (now : ℚ) (s : BBRAlgorithm) :
    (s.check_probe_rtt now).cwnd = s.cwnd := by
  unfold check_probe_rtt
  split_ifs <;> rfl

theorem handle_probe_rtt_floor (now : ℚ) (s : BBRAlgorithm) (h : 4 ≤ s.cwnd) :
    4 ≤ (s.handle_probe_rtt now).cwnd := by
  unfold handle_probe_rtt
  dsimp only
  split_ifs
  · exact le_max_of_le_left h
  · exact h
  · exact h

theorem ack_probe_rtt_floor (now : ℚ) (s : BBRAlgorithm) (h : 4 ≤ s.cwnd) :
    4 ≤ (s.ack_probe_rtt now).cwnd := by
  unfold ack_probe_rtt
  dsimp only
  split_ifs
  · exact handle_probe_rtt_floor now _ (by rw [check_probe_rtt_cwnd]; exact h)
  · rw [check_probe_rtt_cwnd]
    exact h

theorem set_pacing_rate_cwnd (s : BBRAlgorithm) : (s.set_pacing_rate).cwnd = s.cwnd := rfl

theorem set_cwnd_floor (s : BBRAlgorithm) (h : 4 ≤ s.cwnd) : 4 ≤ (s.set_cwnd).cwnd := by
  unfold set_cwnd
  cases hm : s.min_rtt
  · exact h
  · dsimp only
    split_ifs
    · exact le_max_left 4 _
    · exact le_max_right _ 4

theorem on_ack_received_floor (now : ℚ) (ack : ℤ) (rtt : Option ℚ) (d e : ℚ)
    (s : BBRAlgorithm) (h : 4 ≤ s.cwnd) :
    4 ≤ (s.on_ack_received now ack rtt d e).cwnd := by
  show 4 ≤ (BBRAlgorithm.set_cwnd _).cwnd
  apply set_cwnd_floor
  rw [set_pacing_rate_cwnd]
  apply ack_probe_rtt_floor
  rw [ack_state_machine_cwnd, ack_update_bw_cwnd, ack_update_rtt_cwnd]
  exact h

theorem runAcks_floor (evs : List AckEvent) :
    ∀ s : BBRAlgorithm, 4 ≤ s.cwnd → 4 ≤ (runAcks s evs).cwnd := by
  induction evs with
  | nil => intro s h; exact h
  | cons e rest ih =>
      intro s h
      exact ih _ (on_ack_received_floor e.now e.ack_num e.rtt e.delivered_bytes e.elapsed_time s h)

theorem set_cwnd_state (s : BBRAlgorithm) : (s.set_cwnd).state = s.state := by
  unfold set_cwnd
  cases hm : s.min_rtt
  · rfl
  · dsimp only
    split_ifs <;> rfl

theorem set_cwnd_min_rtt (s : BBRAlgorithm) : (s.set_cwnd).min_rtt = s.min_rtt := by
  unfold set_cwnd
  cases hm : s.min_rtt
  · exact hm
  · dsimp only
    split_ifs <;> rfl

theorem set_cwnd_bw (s : BBRAlgorithm) : (s.set_cwnd).bw_estimate = s.bw_estimate := by
  unfold set_cwnd
  cases hm : s.min_rtt
  · rfl
  · dsimp only
    split_ifs <;> rfl

theorem set_cwnd_probe_rtt_spec (s : BBRAlgorithm) (m : ℚ) (hm : s.min_rtt = some m)
    (hs : s.state = .PROBE_RTT) :
    (s.set_cwnd).cwnd = max 4 (s.bw_estimate * m) := by
  unfold set_cwnd
  rw [hm]
  dsimp only
  split_ifs
  simp_all

end BBRAlgorithm

theorem startup_ne_probe_rtt : (BBRPhase.STARTUP = BBRPhase.PROBE_RTT) = False :=
  eq_false fun h => BBRPhase.noConfusion h

theorem drain_ne_probe_rtt : (BBRPhase.DRAIN = BBRPhase.PROBE_RTT) = False :=
  eq_false fun h => BBRPhase.noConfusion h

theorem probe_bw_ne_probe_rtt : (BBRPhase.PROBE_BW = BBRPhase.PROBE_RTT) = False :=
  eq_false fun h => BBRPhase.noConfusion h

theorem on_ack_received_probe_rtt (now : ℚ) (ack : ℤ) (rtt : Option ℚ) (d e : ℚ)
    (s : BBRAlgorithm) (m : ℚ)
    (hstate : (s.on_ack_received now ack rtt d e).state = .PROBE_RTT)
    (hm : (s.on_ack_received now ack rtt d e).min_rtt = some m) :
    (s.on_ack_received now ack rtt d e).cwnd =
      max 4 ((s.on_ack_received now ack rtt d e).bw_estimate * m) := by
  have key : ∀ Y : BBRAlgorithm, Y.set_cwnd.state = .PROBE_RTT → Y.set_cwnd.min_rtt = some m →
      Y.set_cwnd.cwnd = max 4 (Y.set_cwnd.bw_estimate * m) := by
    intro Y h1 h2
    rw [BBRAlgorithm.set_cwnd_state] at h1
    rw [BBRAlgorithm.set_cwnd_min_rtt] at h2
    rw [BBRAlgorithm.set_cwnd_bw]
    exact BBRAlgorithm.set_cwnd_probe_rtt_spec Y m h2 h1
  exact key _ hstate hm

/-- C3.  BBR window floor: after every event of every ack sequence fed to a
freshly constructed `BBRAlgorithm` — arbitrary `rtt`, `delivered_bytes`,
`elapsed_time` arguments and arbitrary event instants — `cwnd ≥ 4` holds (each
prefix of the sequence is itself a sequence, so this covers every intermediate
state); and whenever an event ends in the `PROBE_RTT` state with a finite
minimum RTT `m`, that event has set `cwnd` to exactly
`max 4 (bw_estimate * m)`, the bandwidth-delay-product floor. -/
theorem claim_C3_bbr_window_floor :
    (∀ evs : List BBRAlgorithm.AckEvent,
      4 ≤ (BBRAlgorithm.runAcks BBRAlgorithm.init evs).cwnd) ∧
    (∀ (s : BBRAlgorithm) (now : ℚ) (ack : ℤ) (rtt : Option ℚ) (d e m : ℚ),
      (s.on_ack_received now ack rtt d e).state = .PROBE_RTT →
      (s.on_ack_received now ack rtt d e).min_rtt = some m →
      (s.on_ack_received now ack rtt d e).cwnd =
        max 4 ((s.on_ack_received now ack rtt d e).bw_estimate * m)) :=
  ⟨fun evs => BBRAlgorithm.runAcks_floor evs BBRAlgorithm.init (by norm_num [BBRAlgorithm.init]),
   fun s now ack rtt d e m h1 h2 => on_ack_received_probe_rtt now ack rtt d e s m h1 h2⟩

/-- Witness for C3 at concrete inputs: a two-event run (an RTT sample of 5 at
instant 0, then a bare ack at instant 20, which drives the machine into
`PROBE_RTT`) keeps `cwnd ≥ 4`; and an event entering `PROBE_RTT` with minimum
RTT 5 pins `cwnd` to `max 4 (bw_estimate * 5)`. -/
theorem claim_C3_bbr_window_floor_witness :
    4 ≤ (BBRAlgorithm.runAcks BBRAlgorithm.init
        [⟨0, 1, some 5, 0, 0⟩, ⟨20, 2, none, 0, 0⟩]).cwnd ∧
    (BBRAlgorithm.on_ack_received 20 2 none 0 0
        { BBRAlgorithm.init with min_rtt := some 5 }).cwnd =
      max 4 ((BBRAlgorithm.on_ack_received 20 2 none 0 0
        { BBRAlgorithm.init with min_rtt := some 5 }).bw_estimate * 5) :=
  ⟨claim_C3_bbr_window_floor.1 [⟨0, 1, some 5, 0, 0⟩, ⟨20, 2, none, 0, 0⟩],
   claim_C3_bbr_window_floor.2 { BBRAlgorithm.init with min_rtt := some 5 } 20 2 none 0 0 5
     (by norm_num [BBRAlgorithm.on_ack_received, BBRAlgorithm.ack_update_rtt,
       BBRAlgorithm.truthy, BBRAlgorithm.update_min_rtt, BBRAlgorithm.rttBelowMin,
       BBRAlgorithm.ack_update_bw, BBRAlgorithm.update_bandwidth_estimate,
       BBRAlgorithm.ack_state_machine, BBRAlgorithm.check_startup_done,
       BBRAlgorithm.advance_cycle_phase, BBRAlgorithm.drain_exit, BBRAlgorithm.ack_probe_rtt,
       BBRAlgorithm.check_probe_rtt, BBRAlgorithm.handle_probe_rtt,
       BBRAlgorithm.set_pacing_rate, BBRAlgorithm.set_cwnd, BBRAlgorithm.bbr_high_gain,
       BBRAlgorithm.bbr_drain_gain, BBRAlgorithm.bbr_cwnd_gain, BBRAlgorithm.bbr_probe_rtt_time,
       BBRAlgorithm.bbr_rtprop_filterlen, BBRAlgorithm.pacing_gain_cycle, BBRAlgorithm.init,
       startup_ne_probe_rtt, drain_ne_probe_rtt, probe_bw_ne_probe_rtt])
     (by norm_num [BBRAlgorithm.on_ack_received, BBRAlgorithm.ack_update_rtt,
       BBRAlgorithm.truthy, BBRAlgorithm.update_min_rtt, BBRAlgorithm.rttBelowMin,
       BBRAlgorithm.ack_update_bw, BBRAlgorithm.update_bandwidth_estimate,
       BBRAlgorithm.ack_state_machine, BBRAlgorithm.check_startup_done,
       BBRAlgorithm.advance_cycle_phase, BBRAlgorithm.drain_exit, BBRAlgorithm.ack_probe_rtt,
       BBRAlgorithm.check_probe_rtt, BBRAlgorithm.handle_probe_rtt,
       BBRAlgorithm.set_pacing_rate, BBRAlgorithm.set_cwnd, BBRAlgorithm.bbr_high_gain,
       BBRAlgorithm.bbr_drain_gain, BBRAlgorithm.bbr_cwnd_gain, BBRAlgorithm.bbr_probe_rtt_time,
       BBRAlgorithm.bbr_rtprop_filterlen, BBRAlgorithm.pacing_gain_cycle, BBRAlgorithm.init,
       startup_ne_probe_rtt, drain_ne_probe_rtt, probe_bw_ne_probe_rtt])⟩

namespace BBRAlgorithm

theorem ack_update_bw_min_rtt (d e : ℚ) (s : BBRAlgorithm) :
    (s.ack_update_bw d e).min_rtt = s.min_rtt := by
  unfold ack_update_bw update_bandwidth_estimate
  dsimp only
  split_ifs <;> rfl

theorem check_startup_done_min_rtt (s : BBRAlgorithm) :
    (s.check_startup_done).2.min_rtt = s.min_rtt := by
  unfold check_startup_done
  dsimp only
  split_ifs <;> rfl

theorem advance_cycle_phase_min_rtt (now : ℚ) (s : BBRAlgorithm) :
    (s.advance_cycle_phase now).min_rtt = s.min_rtt := by
  unfold advance_cycle_phase
  cases hm : s.min_rtt
  · exact hm
  · dsimp only
    split_ifs <;> rw [← hm]

theorem ack_state_machine_min_rtt (now : ℚ) (s : BBRAlgorithm) :
    (s.ack_state_machine now).min_rtt = s.min_rtt := by
  unfold ack_state_machine
  cases hs : s.state
  · dsimp only
    split_ifs
    · exact check_startup_done_min_rtt _
    · exact check_startup_done_min_rtt _
  · dsimp only
    split_ifs <;> rfl
  · exact advance_cycle_phase_min_rtt now s
  · rfl

theorem check_probe_rtt_min_rtt (now : ℚ) (s : BBRAlgorithm) :
    (s.check_probe_rtt now).min_rtt = s.min_rtt := by
  unfold check_probe_rtt
  split_ifs <;> rfl

theorem handle_probe_rtt_min_rtt (now : ℚ) (s : BBRAlgorithm) :
    (s.handle_probe_rtt now).min_rtt = s.min_rtt := by
  unfold handle_probe_rtt
  dsimp only
  split_ifs <;> rfl

theorem ack_probe_rtt_min_rtt (now : ℚ) (s : BBRAlgorithm) :
    (s.ack_probe_rtt now).min_rtt = s.min_rtt := by
  unfold ack_probe_rtt
  dsimp only
  split_ifs
  · rw [handle_probe_rtt_min_rtt, check_probe_rtt_min_rtt]
  · rw [check_probe_rtt_min_rtt]

theorem set_pacing_rate_min_rtt (s : BBRAlgorithm) : (s.set_pacing_rate).min_rtt = s.min_rtt :=
  rfl

theorem ack_update_bw_stamp (d e : ℚ) (s : BBRAlgorithm) :
    (s.ack_update_bw d e).rtprop_stamp = s.rtprop_stamp := by
  unfold ack_update_bw update_bandwidth_estimate
  dsimp only
  split_ifs <;> rfl

theorem check_startup_done_stamp (s : BBRAlgorithm) :
    (s.check_startup_done).2.rtprop_stamp = s.rtprop_stamp := by
  unfold check_startup_done
  dsimp only
  split_ifs <;> rfl

theorem advance_cycle_phase_stamp (now : ℚ) (s : BBRAlgorithm) :
    (s.advance_cycle_phase now).rtprop_stamp = s.rtprop_stamp := by
  unfold advance_cycle_phase
  cases hm : s.min_rtt
  · rfl
  · dsimp only
    split_ifs <;> rfl

theorem ack_state_machine_stamp (now : ℚ) (s : BBRAlgorithm) :
    (s.ack_state_machine now).rtprop_stamp = s.rtprop_stamp := by
  unfold ack_state_machine
  cases hs : s.state
  · dsimp only
    split_ifs
    · exact check_startup_done_stamp _
    · exact check_startup_done_stamp _
  · dsimp only
    split_ifs <;> rfl
  · exact advance_cycle_phase_stamp now s
  · rfl

theorem check_probe_rtt_stamp (now : ℚ) (s : BBRAlgorithm) :
    (s.check_probe_rtt now).rtprop_stamp = s.rtprop_stamp := by
  unfold check_probe_rtt
  split_ifs <;> rfl

theorem handle_probe_rtt_stamp (now : ℚ) (s : BBRAlgorithm) :
    (s.handle_probe_rtt now).rtprop_stamp = s.rtprop_stamp ∨
      (s.handle_probe_rtt now).rtprop_stamp = now := by
  unfold handle_probe_rtt
  dsimp only
  split_ifs
  · exact Or.inr rfl
  · exact Or.inr rfl
  · exact Or.inl rfl

theorem ack_probe_rtt_stamp (now : ℚ) (s : BBRAlgorithm) :
    (s.ack_probe_rtt now).rtprop_stamp = s.rtprop_stamp ∨
      (s.ack_probe_rtt now).rtprop_stamp = now := by
  unfold ack_probe_rtt
  dsimp only
  split_ifs
  · rcases handle_probe_rtt_stamp now (s.check_probe_rtt now) with h | h
    · rw [h, check_probe_rtt_stamp]
      exact Or.inl rfl
    · exact Or.inr h
  · rw [check_probe_rtt_stamp]
    exact Or.inl rfl

theorem set_pacing_rate_stamp (s : BBRAlgorithm) :
    (s.set_pacing_rate).rtprop_stamp = s.rtprop_stamp := rfl

theorem set_cwnd_stamp (s : BBRAlgorithm) : (s.set_cwnd).rtprop_stamp = s.rtprop_stamp := by
  unfold set_cwnd
  cases hm : s.min_rtt
  · rfl
  · dsimp only
    split_ifs <;> rfl

theorem ack_update_rtt_bw (now : ℚ) (rtt : Option ℚ) (s : BBRAlgorithm) :
    (s.ack_update_rtt now rtt).bw_estimate = s.bw_estimate := by
  unfold ack_update_rtt update_min_rtt
  split_ifs <;> rfl

theorem check_startup_done_bw (s : BBRAlgorithm) :
    (s.check_startup_done).2.bw_estimate = s.bw_estimate := by
  unfold check_startup_done
  dsimp only
  split_ifs <;> rfl

theorem advance_cycle_phase_bw (now : ℚ) (s : BBRAlgorithm) :
    (s.advance_cycle_phase now).bw_estimate = s.bw_estimate := by
  unfold advance_cycle_phase
  cases hm : s.min_rtt
  · rfl
  · dsimp only
    split_ifs <;> rfl

theorem ack_state_machine_bw (now : ℚ) (s : BBRAlgorithm) :
    (s.ack_state_machine now).bw_estimate = s.bw_estimate := by
  unfold ack_state_machine
  cases hs : s.state
  · dsimp only
    split_ifs
    · exact check_startup_done_bw _
    · exact check_startup_done_bw _
  · dsimp only
    split_ifs <;> rfl
  · exact advance_cycle_phase_bw now s
  · rfl

theorem check_probe_rtt_bw (now : ℚ) (s : BBRAlgorithm) :
    (s.check_probe_rtt now).bw_estimate = s.bw_estimate := by
  unfold check_probe_rtt
  split_ifs <;> rfl

theorem handle_probe_rtt_bw (now : ℚ) (s : BBRAlgorithm) :
    (s.handle_probe_rtt now).bw_estimate = s.bw_estimate := by
  unfold handle_probe_rtt
  dsimp only
  split_ifs <;> rfl

theorem ack_probe_rtt_bw (now : ℚ) (s : BBRAlgorithm) :
    (s.ack_probe_rtt now).bw_estimate = s.bw_estimate := by
  unfold ack_probe_rtt
  dsimp only
  split_ifs
  · rw [handle_probe_rtt_bw, check_probe_rtt_bw]
  · rw [check_probe_rtt_bw]

theorem set_pacing_rate_bw (s : BBRAlgorithm) : (s.set_pacing_rate).bw_estimate = s.bw_estimate :=
  rfl

end BBRAlgorithm

/-- C7, corrected.  Sample hygiene as the code actually implements it: an
absent or zero `rtt` argument (the values Python's `if rtt:` treats as falsy)
leaves `min_rtt` unchanged, and the min-RTT timestamp is then never touched by
the sample path — it can only be reset to the current instant by a ProbeRTT
exit inside the same event; a non-positive `elapsed_time` leaves the bandwidth
estimate unchanged.  (The model is a total function, so no error is raised.)
A strictly negative `rtt`, however, is truthy in Python and is processed as a
valid sample — see the counterexample. -/
theorem claim_C7_sample_hygiene (s : BBRAlgorithm) (now : ℚ) (ack : ℤ) (rtt : Option ℚ)
    (d e : ℚ) :
    (BBRAlgorithm.truthy rtt = false →
      (s.on_ack_received now ack rtt d e).min_rtt = s.min_rtt ∧
      ((s.on_ack_received now ack rtt d e).rtprop_stamp = s.rtprop_stamp ∨
        (s.on_ack_received now ack rtt d e).rtprop_stamp = now)) ∧
    (e ≤ 0 → (s.on_ack_received now ack rtt d e).bw_estimate = s.bw_estimate) := by
  constructor
  · intro h
    constructor
    · show (BBRAlgorithm.set_cwnd _).min_rtt = s.min_rtt
      rw [BBRAlgorithm.set_cwnd_min_rtt, BBRAlgorithm.set_pacing_rate_min_rtt,
        BBRAlgorithm.ack_probe_rtt_min_rtt, BBRAlgorithm.ack_state_machine_min_rtt,
        BBRAlgorithm.ack_update_bw_min_rtt]
      unfold BBRAlgorithm.ack_update_rtt
      rw [h]
      simp
    · show (BBRAlgorithm.set_cwnd _).rtprop_stamp = s.rtprop_stamp ∨
        (BBRAlgorithm.set_cwnd _).rtprop_stamp = now
      rw [BBRAlgorithm.set_cwnd_stamp, BBRAlgorithm.set_pacing_rate_stamp]
      have h0 : (s.ack_update_rtt now rtt).rtprop_stamp = s.rtprop_stamp := by
        unfold BBRAlgorithm.ack_update_rtt
        rw [h]
        simp
      rcases BBRAlgorithm.ack_probe_rtt_stamp now
          (((s.ack_update_rtt now rtt).ack_update_bw d e).ack_state_machine now) with h1 | h1
      · rw [h1, BBRAlgorithm.ack_state_machine_stamp, BBRAlgorithm.ack_update_bw_stamp, h0]
        exact Or.inl rfl
      · exact Or.inr h1
  · intro h
    show (BBRAlgorithm.set_cwnd _).bw_estimate = s.bw_estimate
    rw [BBRAlgorithm.set_cwnd_bw, BBRAlgorithm.set_pacing_rate_bw,
      BBRAlgorithm.ack_probe_rtt_bw, BBRAlgorithm.ack_state_machine_bw]
    unfold BBRAlgorithm.ack_update_bw
    rw [if_neg (not_lt.mpr h)]
    exact BBRAlgorithm.ack_update_rtt_bw now rtt s

/-- Witness for C7 (amended) at a concrete input: an ack with `rtt = None` and
`elapsed_time = 0` on a fresh BBR state leaves `min_rtt`, the timestamp and
the bandwidth estimate alone. -/
theorem claim_C7_sample_hygiene_witness :
    ((BBRAlgorithm.on_ack_received 1 1 none 0 0 BBRAlgorithm.init).min_rtt =
        BBRAlgorithm.init.min_rtt ∧
      ((BBRAlgorithm.on_ack_received 1 1 none 0 0 BBRAlgorithm.init).rtprop_stamp =
          BBRAlgorithm.init.rtprop_stamp ∨
        (BBRAlgorithm.on_ack_received 1 1 none 0 0 BBRAlgorithm.init).rtprop_stamp = 1)) ∧
    (BBRAlgorithm.on_ack_received 1 1 none 0 0 BBRAlgorithm.init).bw_estimate =
      BBRAlgorithm.init.bw_estimate :=
  ⟨(claim_C7_sample_hygiene BBRAlgorithm.init 1 1 none 0 0).1 rfl,
   (claim_C7_sample_hygiene BBRAlgorithm.init 1 1 none 0 0).2 le_rfl⟩

/-- Counterexample to C7 as stated: a strictly negative `rtt = -1` (a
non-positive sample) is truthy in Python, so it is fed to `update_min_rtt` and
overwrites `min_rtt` (initially infinite) with `-1`; and even with the ignored
sample `rtt = 0`, a ProbeRTT exit within the same event resets the min-RTT
timestamp. -/
theorem claim_C7_sample_hygiene_counterexample :
    (BBRAlgorithm.on_ack_received 0 1 (some (-1)) 0 0 BBRAlgorithm.init).min_rtt ≠
      BBRAlgorithm.init.min_rtt ∧
    (BBRAlgorithm.on_ack_received 6 1 (some 0) 0 0
        { BBRAlgorithm.init with
          state := BBRPhase.PROBE_RTT
          probe_rtt_done_stamp := 5 }).rtprop_stamp ≠
      ({ BBRAlgorithm.init with
          state := BBRPhase.PROBE_RTT
          probe_rtt_done_stamp := 5 } : BBRAlgorithm).rtprop_stamp := by
  constructor <;>
    norm_num [BBRAlgorithm.on_ack_received, BBRAlgorithm.ack_update_rtt, BBRAlgorithm.truthy,
      BBRAlgorithm.update_min_rtt, BBRAlgorithm.rttBelowMin, BBRAlgorithm.ack_update_bw,
      BBRAlgorithm.update_bandwidth_estimate, BBRAlgorithm.ack_state_machine,
      BBRAlgorithm.check_startup_done, BBRAlgorithm.advance_cycle_phase,
      BBRAlgorithm.drain_exit, BBRAlgorithm.ack_probe_rtt, BBRAlgorithm.check_probe_rtt,
      BBRAlgorithm.handle_probe_rtt, BBRAlgorithm.set_pacing_rate, BBRAlgorithm.set_cwnd,
      BBRAlgorithm.bbr_high_gain, BBRAlgorithm.bbr_drain_gain, BBRAlgorithm.bbr_cwnd_gain,
      BBRAlgorithm.bbr_probe_rtt_time, BBRAlgorithm.bbr_rtprop_filterlen,
      BBRAlgorithm.pacing_gain_cycle, BBRAlgorithm.init, startup_ne_probe_rtt,
      drain_ne_probe_rtt, probe_bw_ne_probe_rtt, Option.some_ne_none]

theorem should_switch_true_elim (now : ℚ) (t : AlgorithmType)
    (st : AdaptiveTCPCongestionControl) (h : st.should_switch_algorithm now t = true) :
    t ≠ st.algorithm_type ∧ 10 ≤ now - st.last_switch_time := by
  by_cases h1 : now - st.last_switch_time < 10
  · exfalso
    unfold AdaptiveTCPCongestionControl.should_switch_algorithm
      AdaptiveTCPCongestionControl.switch_cooldown at h
    rw [if_pos h1] at h
    simp at h
  · by_cases h2 : t = st.algorithm_type
    · exfalso
      unfold AdaptiveTCPCongestionControl.should_switch_algorithm
        AdaptiveTCPCongestionControl.switch_cooldown at h
      rw [if_neg h1, if_pos h2] at h
      simp at h
    · exact ⟨h2, not_lt.mp h1⟩

theorem switch_algorithm_props (now : ℚ) (k : AlgorithmType)
    (st : AdaptiveTCPCongestionControl) (hk : k ≠ st.algorithm_type) :
    (st.switch_algorithm now k).algorithm_type = k ∧
    (st.switch_algorithm now k).last_switch_time = now := by
  unfold AdaptiveTCPCongestionControl.switch_algorithm
  rw [if_neg hk]
  refine ⟨?_, rfl⟩
  show ((AdaptiveTCPCongestionControl.initAlgorithm k).setWindow _ _).tag = k
  rw [ActiveAlgorithm.setWindow_tag, initAlgorithm_tag]

theorem switch_algorithm_self (now : ℚ) (k : AlgorithmType)
    (st : AdaptiveTCPCongestionControl) (hk : k = st.algorithm_type) :
    st.switch_algorithm now k = st := by
  unfold AdaptiveTCPCongestionControl.switch_algorithm
  rw [if_pos hk]

theorem adaptive_switch_cases (now : ℚ) (sqrtq : ℚ → ℚ) (r b : ℚ)
    (st : AdaptiveTCPCongestionControl) :
    ((st.adaptive_algorithm_switch now sqrtq r b).algorithm_type = st.algorithm_type ∧
      (st.adaptive_algorithm_switch now sqrtq r b).last_switch_time = st.last_switch_time) ∨
    ((st.adaptive_algorithm_switch now sqrtq r b).algorithm_type ≠ st.algorithm_type ∧
      10 ≤ now - st.last_switch_time ∧
      (st.adaptive_algorithm_switch now sqrtq r b).last_switch_time = now) := by
  unfold AdaptiveTCPCongestionControl.adaptive_algorithm_switch
  dsimp only
  split_ifs <;>
    first
      | exact Or.inl ⟨rfl, rfl⟩
      | (rename_i hs
         have h := should_switch_true_elim now _ _ hs
         have hp := switch_algorithm_props now _ _ h.1
         right
         refine ⟨?_, h.2, hp.2⟩
         rw [hp.1]
         exact h.1)

theorem on_ack_received_cases (now : ℚ) (sqrtq : ℚ → ℚ) (ack : ℤ) (rtt bw : Option ℚ)
    (st : AdaptiveTCPCongestionControl) :
    ((st.on_ack_received now sqrtq ack rtt bw).algorithm_type = st.algorithm_type ∧
      (st.on_ack_received now sqrtq ack rtt bw).last_switch_time = st.last_switch_time) ∨
    ((st.on_ack_received now sqrtq ack rtt bw).algorithm_type ≠ st.algorithm_type ∧
      10 ≤ now - st.last_switch_time ∧
      (st.on_ack_received now sqrtq ack rtt bw).last_switch_time = now) := by
  have hTs : ({ st with algorithm := st.algorithm.on_ack_with_samples now ack rtt } :
      AdaptiveTCPCongestionControl).algorithm_type = st.algorithm_type :=
    ActiveAlgorithm.on_ack_with_samples_tag now ack rtt st.algorithm
  have hTp : ({ st with algorithm := st.algorithm.on_ack_plain now ack } :
      AdaptiveTCPCongestionControl).algorithm_type = st.algorithm_type :=
    ActiveAlgorithm.on_ack_plain_tag now ack st.algorithm
  unfold AdaptiveTCPCongestionControl.on_ack_received
  dsimp only
  split_ifs with h1 h2 h3
  · rcases adaptive_switch_cases now sqrtq (rtt.getD 0) (bw.getD 0)
        { st with algorithm := st.algorithm.on_ack_with_samples now ack rtt } with
      ⟨a1, a2⟩ | ⟨a1, a2, a3⟩
    · exact Or.inl ⟨a1.trans hTs, a2⟩
    · exact Or.inr ⟨fun he => a1 (he.trans hTs.symm), a2, a3⟩
  · rcases adaptive_switch_cases now sqrtq (rtt.getD 0) (bw.getD 0)
        { st with algorithm := st.algorithm.on_ack_plain now ack } with
      ⟨a1, a2⟩ | ⟨a1, a2, a3⟩
    · exact Or.inl ⟨a1.trans hTp, a2⟩
    · exact Or.inr ⟨fun he => a1 (he.trans hTp.symm), a2, a3⟩
  · exact Or.inl ⟨hTs, rfl⟩
  · exact Or.inl ⟨hTp, rfl⟩

theorem runOps_spaced (sqrtq cbrt : ℚ → ℚ) (ops : List ControllerOp) :
    ∀ st : AdaptiveTCPCongestionControl,
      spaced st.last_switch_time (AdaptiveTCPCongestionControl.runOps sqrtq cbrt st ops).2 := by
  induction ops with
  | nil => intro st; exact trivial
  | cons op rest ih =>
      intro st
      cases op with
      | ack now ack_num rtt bw =>
          simp only [AdaptiveTCPCongestionControl.runOps, AdaptiveTCPCongestionControl.stepOp]
          rcases on_ack_received_cases now sqrtq ack_num rtt bw st with ⟨h1, h2⟩ | ⟨h1, h2, h3⟩
          · rw [if_neg (not_ne_iff.mpr h1)]
            simp only [Option.toList, List.nil_append]
            have := ih (st.on_ack_received now sqrtq ack_num rtt bw)
            rwa [h2] at this
          · rw [if_pos h1]
            simp only [Option.toList, List.cons_append, List.nil_append]
            refine ⟨Or.inr h2, ?_⟩
            have := ih (st.on_ack_received now sqrtq ack_num rtt bw)
            rwa [h3] at this
      | loss now =>
          simp only [AdaptiveTCPCongestionControl.runOps, AdaptiveTCPCongestionControl.stepOp,
            Option.toList, List.nil_append]
          have hl : (st.on_loss_detected now cbrt).last_switch_time = st.last_switch_time := rfl
          have := ih (st.on_loss_detected now cbrt)
          rwa [hl] at this
      | dataSent =>
          simp only [AdaptiveTCPCongestionControl.runOps, AdaptiveTCPCongestionControl.stepOp,
            Option.toList, List.nil_append]
          have hl : (st.on_data_sent).last_switch_time = st.last_switch_time := rfl
          have := ih st.on_data_sent
          rwa [hl] at this
      | manualSwitch now target =>
          simp only [AdaptiveTCPCongestionControl.runOps, AdaptiveTCPCongestionControl.stepOp]
          by_cases ht : target = st.algorithm_type
          · rw [switch_algorithm_self now target st ht]
            rw [if_neg (not_ne_iff.mpr rfl)]
            simp only [Option.toList, List.nil_append]
            exact ih st
          · have hp := switch_algorithm_props now target st ht
            have hne : (st.switch_algorithm now target).algorithm_type ≠ st.algorithm_type := by
              rw [hp.1]
              exact ht
            rw [if_pos hne]
            simp only [Option.toList, List.cons_append, List.nil_append]
            refine ⟨Or.inl rfl, ?_⟩
            have := ih (st.switch_algorithm now target)
            rwa [hp.2] at this

/-- C6, corrected.  Cooldown for policy-driven switches only: over every
operation sequence on a controller (acks with samples, losses, data-sent
events and direct `switch_algorithm` calls), every switch that is *not* a
direct manual call happens at least 10 seconds after the immediately preceding
switch of either kind (and at least 10 seconds after controller creation if it
is the first switch).  Manual `switch_algorithm` calls bypass the cooldown —
see the counterexample, which refutes the claim as stated. -/
theorem claim_C6_cooldown (sqrtq cbrt : ℚ → ℚ) (now0 : ℚ) (k : AlgorithmType)
    (ops : List ControllerOp) :
    spaced now0 (AdaptiveTCPCongestionControl.runOps sqrtq cbrt
      (AdaptiveTCPCongestionControl.init now0 k) ops).2 :=
  runOps_spaced sqrtq cbrt ops (AdaptiveTCPCongestionControl.init now0 k)

/-- Counterexample to C6 as stated: two direct `switch_algorithm` calls only
one second apart both perform switches — `switch_algorithm` never consults the
cooldown, so switches 1 second apart occur. -/
theorem claim_C6_cooldown_counterexample :
    (AdaptiveTCPCongestionControl.runOps (fun _ => 0) (fun _ => 0)
        (AdaptiveTCPCongestionControl.init 0 .RENO)
        [.manualSwitch 0 .CUBIC, .manualSwitch 1 .TAHOE]).2 =
      [⟨0, true⟩, ⟨1, true⟩] ∧ (1 : ℚ) - 0 < 10 := by
  constructor
  · decide
  · norm_num
